import Mathlib

/-!
Shallow embedding of `lib/controllers/usersController.js` from the
openSenseMap-API repository, together with the parts of the models/helpers
layers (absent from the visible sources) that the controller calls into,
modelled from the specification.

Conventions of the embedding:
* Request parameters are plain `String`s; the empty string stands for an
  absent parameter (JavaScript truthiness of a string is exactly
  non-emptiness, and the controller only ever tests truthiness or `!== ''`).
* Errors are `(kind, message)` pairs mirroring the restify error classes
  and messages used by the controller.
* Promise chains are sequentialized exactly in the order the callbacks run;
  every `res.send` and every `next(err)` is recorded, in order, in a
  `responses` list, so that missing-`return` artifacts of the source are
  preserved.  The client-facing response is the first element.
* Timestamps are `Nat`; `moment.utc().isAfter(e)` becomes `e < now`.
-/

/-- Error classes used by the controller (restify error classes). -/
inductive ErrKind where
  | badRequest
  | forbidden
  | unprocessableEntity
  | internalServer
deriving Repr, DecidableEq

/-- A classified client-facing error: restify error class plus message. -/
structure ApiError where
  kind : ErrKind
  message : String
deriving Repr, DecidableEq

/-- One recorded response attempt: a `res.send` success or a `next(err)`. -/
inductive Resp where
  | ok (message : String)
  | err (e : ApiError)
deriving Repr, DecidableEq

/-- The durable user record (the fields the controller reads or writes). -/
structure User where
  name : String
  email : String
  unconfirmedEmail : Option String
  language : String
  password : String
  resetPasswordToken : String
  resetPasswordExpires : Nat
  emailConfirmationToken : String
  emailIsConfirmed : Bool
deriving Repr, DecidableEq

/-- Modelled from the spec: the token blacklist helper (`lib/helpers`) is not
among the visible sources.  Section 4.2 describes the Revocation Registry as
an in-memory set with idempotent insert; we model it as a duplicate-free
list of tokens. -/
def addTokenToBlacklist (registry : List String) (t : String) : List String :=
  if t ∈ registry then registry else t :: registry

/-- Modelled from the spec: Revocation Registry lookup `isRevoked(token)`,
consulted on every authenticated request (section 4.2). -/
def isRevoked (registry : List String) (t : String) : Bool :=
  t ∈ registry

/-- Modelled from the spec: `User.validatePassword` lives in the models
package, not among the visible sources.  The boundary rule is a minimum
password length of 8 (section 6). -/
def validatePassword (p : String) : Bool :=
  8 ≤ p.length

/-- Modelled from the spec: `user.checkPassword` lives in the models package,
not among the visible sources.  Section 6 specifies
`verifyPassword(user, plaintext) → bool`; we model the stored credential as
directly comparable. -/
def checkPassword (u : User) (p : String) : Bool :=
  p == u.password

/-- Modelled from the spec: the password setter of the models package is not
among the visible sources.  Setting the password also clears the pending
reset state (source comment `also changes the passwordResetToken`,
spec section 4.1: completing a reset clears the reset token/expiry). -/
def userSetPassword (u : User) (p : String) : User :=
  { u with password := p, resetPasswordToken := "", resetPasswordExpires := 0 }

/-- Failures surfaced by the credential store's save operation, as
distinguished by `handleUserError`. -/
inductive SaveError where
  | duplicate
  | validation (errs : List (String × String))
  | other (msg : String)
deriving Repr, DecidableEq

/-- Embedding of `handleUserError` (usersController.js lines 12-28). -/
def handleUserError : SaveError → ApiError
  | .duplicate => ⟨.badRequest, "Duplicate user detected"⟩
  | .validation errs =>
      ⟨.unprocessableEntity,
        String.intercalate ", "
          (errs.map (fun fm => "Parameter " ++ fm.1 ++ " " ++ fm.2))⟩
  | .other msg => ⟨.internalServer, msg⟩

/-- Embedding of `registerUser` (usersController.js lines 41-59), with the
outcomes of `save` and `createToken` supplied as inputs. -/
def registerUser (saveResult : Except SaveError User)
    (tokenResult : Except String String) : Resp :=
  match saveResult with
  | .error e => .err (handleUserError e)
  | .ok _ =>
    match tokenResult with
    | .ok _ => .ok "Successfully registered new user"
    | .error m =>
        .err ⟨.internalServer,
          "User successfully created but unable to create jwt token: " ++ m⟩

/-- Embedding of the query `User.findOne({ email, resetPasswordToken: token })`
(usersController.js line 146). -/
def findUserByEmailAndResetToken (users : List User) (email token : String) :
    Option User :=
  users.find? (fun u => u.email == email && u.resetPasswordToken == token)

/-- Embedding of `resetPassword` (usersController.js lines 143-169).  The
save is the returned updated user; save failures are not modelled because no
claim concerns them. -/
def resetPassword (users : List User) (now : Nat)
    (password token email : String) : Except ApiError (User × String) :=
  match findUserByEmailAndResetToken users email token with
  | none => .error ⟨.forbidden, "Password reset for this user not possible"⟩
  | some user =>
    if user.resetPasswordExpires < now then
      .error ⟨.forbidden, "Password reset token expired"⟩
    else
      .ok (userSetPassword user password,
        "Password successfully changed. You can now login with your new password")

/-- Embedding of the query
`User.findOne({ $and: [ { $or: [ { email }, { unconfirmedEmail: email } ] }, { emailConfirmationToken: token } ] })`
(usersController.js line 184). -/
def findUserForEmailConfirmation (users : List User) (email token : String) :
    Option User :=
  users.find? (fun u =>
    (u.email == email || u.unconfirmedEmail == some email)
      && u.emailConfirmationToken == token)

/-- Modelled from the spec: the save-side email promotion lives in the models
package, not among the visible sources.  Sections 3 and 4.1: on confirmation
the pending `unconfirmedEmail` is promoted to `email` if that was the source
field of the match, and cleared. -/
def promoteConfirmedEmail (suppliedEmail : String) (u : User) : User :=
  if u.unconfirmedEmail == some suppliedEmail then
    { u with email := suppliedEmail, unconfirmedEmail := none }
  else u

/-- Embedding of `confirmEmailAddress` (usersController.js lines 181-203).
The save is the returned updated user. -/
def confirmEmailAddress (users : List User) (token email : String) :
    Except ApiError (User × String) :=
  match findUserForEmailConfirmation users email token with
  | none => .error ⟨.forbidden, "invalid email confirmation token"⟩
  | some user =>
    let confirmed :=
      { user with emailConfirmationToken := "", emailIsConfirmed := true }
    .ok (promoteConfirmedEmail email confirmed,
      "E-Mail successfully confirmed. Thank you")

/-- Everything observable about one `updateUser` run: the user as stored at
the end, the revocation registry, whether `user.save()` was invoked, and all
response attempts in order (first one reaches the client). -/
structure UpdateOutcome where
  user : User
  registry : List String
  saveInvoked : Bool
  responses : List Resp
deriving Repr, DecidableEq

/-- The response that actually reaches the client: the first attempt. -/
def clientResponse (o : UpdateOutcome) : Option Resp :=
  o.responses.head?

/-- Embedding of the promise chain of `updateUser` (usersController.js lines
277-322), entered with the resolved value of `oldPasswordIsCorrect`.  Note
two faithfully preserved artifacts of the source: after
`next(BadRequestError('Current password not correct.'))` the second `.then`
callback still runs and attempts a success send; and the
`somethingsChanged === false` branch sends its response but does not return,
so `req.user.save()` is still invoked and a second response is attempted. -/
def updateUserChecked (u : User) (jwt : String) (registry : List String)
    (name email language newPassword : String)
    (oldPasswordIsCorrect : Bool) : UpdateOutcome :=
  if oldPasswordIsCorrect = false then
    { user := u, registry := registry, saveInvoked := false,
      responses := [.err ⟨.badRequest, "Current password not correct."⟩,
        .ok "User successfully saved."] }
  else
    let s1 : User × Bool :=
      if name ≠ "" ∧ u.name ≠ name then ({ u with name := name }, true)
      else (u, false)
    let s2 : User × Bool :=
      if language ≠ "" ∧ s1.1.language ≠ language then
        ({ s1.1 with language := language }, true)
      else s1
    let s3 : User × List String × Bool :=
      if email ≠ "" ∧ s2.1.email ≠ email then
        ({ s2.1 with unconfirmedEmail := some email },
          [" E-Mail changed. Please confirm your new address. Until confirmation, sign in using your old address"],
          true)
      else (s2.1, [], s2.2)
    let s4 : User × List String × Bool × Bool :=
      if newPassword ≠ "" then
        (userSetPassword s3.1 newPassword,
          s3.2.1 ++ [" Password changed. Please log in with your new password"],
          true, true)
      else (s3.1, s3.2.1, false, s3.2.2)
    let somethingsChanged := s4.2.2.2
    let signOutFlag := s4.2.2.1
    let savedMsg := "User successfully saved." ++ String.intercalate "." s4.2.1
    { user := s4.1,
      registry := if signOutFlag then addTokenToBlacklist registry jwt else registry,
      saveInvoked := true,
      responses :=
        (if somethingsChanged = false then
          [Resp.ok "No changed properties supplied. User remains unchanged."]
        else []) ++ [Resp.ok savedMsg] }

/-- Embedding of `updateUser` (usersController.js lines 248-331).  The three
synchronous early returns come first, in source order: the mutual-exclusion
check (line 253), the missing-`currentPassword` check (line 263), and the
new-password length check (line 269) — the latter runs before the
asynchronous `checkPassword` result is consumed, so it takes precedence over
the wrong-current-password error. -/
def updateUser (u : User) (jwt : String) (registry : List String)
    (name email language currentPassword newPassword : String) :
    UpdateOutcome :=
  if email ≠ "" ∧ newPassword ≠ "" then
    { user := u, registry := registry, saveInvoked := false,
      responses := [.err ⟨.badRequest,
        "You cannot change your email address and password in the same request."⟩] }
  else if newPassword ≠ "" ∨ email ≠ "" then
    if currentPassword = "" then
      { user := u, registry := registry, saveInvoked := false,
        responses := [.err ⟨.badRequest,
          "To change your password or email address, please supply your current password."⟩] }
    else if newPassword ≠ "" ∧ validatePassword newPassword = false then
      { user := u, registry := registry, saveInvoked := false,
        responses := [.err ⟨.badRequest,
          "New password should have at least 8 characters"⟩] }
    else
      updateUserChecked u jwt registry name email language newPassword
        (checkPassword u currentPassword)
  else
    updateUserChecked u jwt registry name email language newPassword true

/-- A concrete user used by witnesses and counterexamples. -/
def sampleUser : User :=
  { name := "alice01", email := "a@x.com", unconfirmedEmail := none,
    language := "en_US", password := "longenough1",
    resetPasswordToken := "", resetPasswordExpires := 0,
    emailConfirmationToken := "", emailIsConfirmed := false }

/-- A concrete user with a pending password reset, for witnesses. -/
def resetUser : User :=
  { sampleUser with resetPasswordToken := "rt1", resetPasswordExpires := 100 }

example :
    (updateUser sampleUser "t1" [] "" "" "" "longenough1" "newpass12").registry
      = ["t1"] := by
  decide

/-- C3: an `updateUser` call supplying both a non-empty email and a non-empty
newPassword always fails upfront with the mutual-exclusion `BadRequest`, and
nothing else happens: the stored user, the registry, and the save flag are
untouched and the rejection is the only response. -/
theorem updateUser_email_and_password_rejected
    (u : User) (jwt : String) (registry : List String)
    (name email language currentPassword newPassword : String)
    (he : email ≠ "") (hp : newPassword ≠ "") :
    updateUser u jwt registry name email language currentPassword newPassword =
      { user := u, registry := registry, saveInvoked := false,
        responses := [.err ⟨.badRequest,
          "You cannot change your email address and password in the same request."⟩] } := by
  simp [updateUser, he, hp]

/-- Witness for C3 at a concrete input. -/
theorem updateUser_email_and_password_rejected_witness :
    ("b@x.com" : String) ≠ "" ∧ ("newpass12" : String) ≠ "" ∧
    updateUser sampleUser "t1" [] "" "b@x.com" "" "longenough1" "newpass12" =
      { user := sampleUser, registry := [], saveInvoked := false,
        responses := [.err ⟨.badRequest,
          "You cannot change your email address and password in the same request."⟩] } :=
  ⟨by decide, by decide,
    updateUser_email_and_password_rejected sampleUser "t1" [] ""
      "b@x.com" "" "longenough1" "newpass12" (by decide) (by decide)⟩

/-- C4: when email and reset token match a stored user but the current time
is strictly after `resetPasswordExpires`, `resetPassword` fails with the
dedicated expired-token error, which is a different error value than the
generic not-found denial. -/
theorem resetPassword_expired_token
    (users : List User) (u : User) (now : Nat) (pw token email : String)
    (hfind : findUserByEmailAndResetToken users email token = some u)
    (hexp : u.resetPasswordExpires < now) :
    resetPassword users now pw token email =
      .error ⟨.forbidden, "Password reset token expired"⟩ ∧
    (⟨.forbidden, "Password reset token expired"⟩ : ApiError) ≠
      ⟨.forbidden, "Password reset for this user not possible"⟩ := by
  refine ⟨?_, by decide⟩
  simp [resetPassword, hfind, hexp]

/-- Witness for C4 at a concrete store and time. -/
theorem resetPassword_expired_token_witness :
    findUserByEmailAndResetToken
        [resetUser]
        "a@x.com" "rt1" =
      some resetUser ∧
    resetUser.resetPasswordExpires < 101 ∧
    resetPassword
        [resetUser]
        101 "newpass12" "rt1" "a@x.com" =
      .error ⟨.forbidden, "Password reset token expired"⟩ :=
  ⟨by decide, by decide,
    (resetPassword_expired_token
      [resetUser]
      resetUser
      101 "newpass12" "rt1" "a@x.com" (by decide) (by decide)).1⟩

/-- C10: the expiry comparison is strict.  A `resetPassword` call arriving
exactly at `resetPasswordExpires` is not treated as expired: it proceeds to
set the new password and succeeds. -/
theorem resetPassword_boundary_not_expired
    (users : List User) (u : User) (pw token email : String)
    (hfind : findUserByEmailAndResetToken users email token = some u) :
    resetPassword users u.resetPasswordExpires pw token email =
      .ok (userSetPassword u pw,
        "Password successfully changed. You can now login with your new password") ∧
    (userSetPassword u pw).password = pw := by
  refine ⟨?_, rfl⟩
  simp [resetPassword, hfind]

/-- Witness for C10 at a concrete store, with `now` equal to the expiry. -/
theorem resetPassword_boundary_not_expired_witness :
    findUserByEmailAndResetToken
        [resetUser]
        "a@x.com" "rt1" =
      some resetUser ∧
    resetPassword
        [resetUser]
        100 "fresh1234" "rt1" "a@x.com" =
      .ok (userSetPassword
          resetUser
          "fresh1234",
        "Password successfully changed. You can now login with your new password") :=
  ⟨by decide,
    (resetPassword_boundary_not_expired
      [resetUser]
      resetUser
      "fresh1234" "rt1" "a@x.com" (by decide)).1⟩

/-- C5: a reset or confirmation attempt whose token does not match the
stored value takes the same no-user-found branch as an attempt against a
store without the user, and both runs produce the very same error value —
the two failures are indistinguishable to the client. -/
theorem token_mismatch_indistinguishable_from_absent
    (u v : User) (rest rest2 : List User) (now : Nat)
    (pw token email ctoken cemail : String)
    (h1 : u.email = email) (h2 : u.resetPasswordToken ≠ token)
    (h3 : findUserByEmailAndResetToken rest email token = none)
    (h4 : v.email = cemail ∨ v.unconfirmedEmail = some cemail)
    (h5 : v.emailConfirmationToken ≠ ctoken)
    (h6 : findUserForEmailConfirmation rest2 cemail ctoken = none) :
    resetPassword (u :: rest) now pw token email =
      resetPassword rest now pw token email ∧
    resetPassword rest now pw token email =
      .error ⟨.forbidden, "Password reset for this user not possible"⟩ ∧
    confirmEmailAddress (v :: rest2) ctoken cemail =
      confirmEmailAddress rest2 ctoken cemail ∧
    confirmEmailAddress rest2 ctoken cemail =
      .error ⟨.forbidden, "invalid email confirmation token"⟩ := by
  have hb2 : (u.resetPasswordToken == token) = false := beq_eq_false_iff_ne.mpr h2
  have hb5 : (v.emailConfirmationToken == ctoken) = false := beq_eq_false_iff_ne.mpr h5
  have hfr : findUserByEmailAndResetToken (u :: rest) email token = none := by
    unfold findUserByEmailAndResetToken at h3 ⊢
    simp [List.find?, hb2, h3]
  have hfc : findUserForEmailConfirmation (v :: rest2) cemail ctoken = none := by
    unfold findUserForEmailConfirmation at h6 ⊢
    simp [List.find?, hb5, h6]
  refine ⟨?_, ?_, ?_, ?_⟩
  · simp [resetPassword, hfr, h3]
  · simp [resetPassword, h3]
  · simp [confirmEmailAddress, hfc, h6]
  · simp [confirmEmailAddress, h6]

/-- C8: when the save succeeds but token minting fails, `registerUser`
reports an internal-server error whose message states that the user was
successfully created, and that error is of a different class (hence a
different value) than any field-validation failure. -/
theorem registerUser_partial_success_distinct
    (u : User) (m : String) (errs : List (String × String)) :
    registerUser (.ok u) (.error m) =
      .err ⟨.internalServer,
        "User successfully created but unable to create jwt token: " ++ m⟩ ∧
    (∃ suffix,
      "User successfully created but unable to create jwt token: " ++ m =
        "User successfully created" ++ suffix) ∧
    (handleUserError (.validation errs)).kind ≠ ErrKind.internalServer := by
  refine ⟨rfl, ⟨" but unable to create jwt token: " ++ m, ?_⟩,
    by simp [handleUserError]⟩
  rw [← String.append_assoc]; rfl

/-- A concrete user with a pending reset whose stored token will not match. -/
def resetMismatchUser : User :=
  { sampleUser with resetPasswordToken := "rt1" }

/-- A concrete user with a pending email confirmation token. -/
def confirmMismatchUser : User :=
  { sampleUser with emailConfirmationToken := "ct1" }

/-- A concrete user with a pending email change awaiting confirmation. -/
def pendingUser : User :=
  { sampleUser with
      unconfirmedEmail := some "b@x.com"
      emailConfirmationToken := "ct1" }

/-- Witness for C5 at concrete stores and mismatching tokens. -/
theorem token_mismatch_indistinguishable_from_absent_witness :
    resetMismatchUser.email = "a@x.com" ∧
    resetMismatchUser.resetPasswordToken ≠ "badtok" ∧
    findUserByEmailAndResetToken [] "a@x.com" "badtok" = none ∧
    (confirmMismatchUser.email = "a@x.com" ∨
      confirmMismatchUser.unconfirmedEmail = some "a@x.com") ∧
    confirmMismatchUser.emailConfirmationToken ≠ "badct" ∧
    findUserForEmailConfirmation [] "a@x.com" "badct" = none ∧
    (resetPassword [resetMismatchUser] 0 "newpass12" "badtok" "a@x.com" =
        resetPassword [] 0 "newpass12" "badtok" "a@x.com" ∧
      resetPassword [] 0 "newpass12" "badtok" "a@x.com" =
        .error ⟨.forbidden, "Password reset for this user not possible"⟩ ∧
      confirmEmailAddress [confirmMismatchUser] "badct" "a@x.com" =
        confirmEmailAddress [] "badct" "a@x.com" ∧
      confirmEmailAddress [] "badct" "a@x.com" =
        .error ⟨.forbidden, "invalid email confirmation token"⟩) :=
  ⟨by decide, by decide, by decide, by decide, by decide, by decide,
    token_mismatch_indistinguishable_from_absent resetMismatchUser
      confirmMismatchUser [] [] 0 "newpass12" "badtok" "a@x.com" "badct" "a@x.com"
      (by decide) (by decide) (by decide) (by decide) (by decide) (by decide)⟩

/-- C9: a `confirmEmailAddress` call whose token matches the stored
confirmation token and whose email matches the confirmed email or the
pending unconfirmed email succeeds, marks the email confirmed, clears the
confirmation token, promotes `unconfirmedEmail` to `email` exactly when the
pending field was the matched one, and yields the persisted user. -/
theorem confirmEmailAddress_success
    (u : User) (rest : List User) (email token : String)
    (hmatch : u.email = email ∨ u.unconfirmedEmail = some email)
    (htok : u.emailConfirmationToken = token) :
    ∃ u2, confirmEmailAddress (u :: rest) token email =
        .ok (u2, "E-Mail successfully confirmed. Thank you") ∧
      u2.emailIsConfirmed = true ∧
      u2.emailConfirmationToken = "" ∧
      (u.unconfirmedEmail = some email → u2.email = email ∧ u2.unconfirmedEmail = none) ∧
      (u.unconfirmedEmail ≠ some email → u2.email = u.email ∧
        u2.unconfirmedEmail = u.unconfirmedEmail) := by
  have hb : ((u.email == email || u.unconfirmedEmail == some email)
      && u.emailConfirmationToken == token) = true := by
    rcases hmatch with h | h <;> simp [h, htok]
  have hfind : findUserForEmailConfirmation (u :: rest) email token = some u := by
    unfold findUserForEmailConfirmation
    simp [List.find?, hb]
  refine ⟨promoteConfirmedEmail email
    { u with emailConfirmationToken := "", emailIsConfirmed := true },
    ?_, ?_, ?_, ?_, ?_⟩
  · simp [confirmEmailAddress, hfind]
  · by_cases h : u.unconfirmedEmail = some email <;>
      simp [promoteConfirmedEmail, h]
  · by_cases h : u.unconfirmedEmail = some email <;>
      simp [promoteConfirmedEmail, h]
  · intro h
    simp [promoteConfirmedEmail, h]
  · intro h
    simp [promoteConfirmedEmail, beq_eq_false_iff_ne.mpr h]

/-- Witness for C9: confirming a pending email change at a concrete input. -/
theorem confirmEmailAddress_success_witness :
    (pendingUser.email = "b@x.com" ∨
      pendingUser.unconfirmedEmail = some "b@x.com") ∧
    pendingUser.emailConfirmationToken = "ct1" ∧
    (∃ u2, confirmEmailAddress
        [pendingUser] "ct1" "b@x.com" =
        .ok (u2, "E-Mail successfully confirmed. Thank you") ∧
      u2.emailIsConfirmed = true ∧
      u2.emailConfirmationToken = "" ∧
      (pendingUser.unconfirmedEmail = some "b@x.com" →
        u2.email = "b@x.com" ∧ u2.unconfirmedEmail = none) ∧
      (pendingUser.unconfirmedEmail ≠ some "b@x.com" →
        u2.email = pendingUser.email ∧
        u2.unconfirmedEmail = pendingUser.unconfirmedEmail)) :=
  ⟨by decide, by decide,
    confirmEmailAddress_success
      pendingUser [] "b@x.com" "ct1"
      (by decide) (by decide)⟩

/-- A token just added to the blacklist is reported revoked. -/
theorem isRevoked_addTokenToBlacklist_self (registry : List String) (t : String) :
    isRevoked (addTokenToBlacklist registry t) t = true := by
  by_cases h : t ∈ registry <;> simp [isRevoked, addTokenToBlacklist, h]

/-- Blacklisting one token does not revoke any other token. -/
theorem isRevoked_addTokenToBlacklist_other (registry : List String)
    (t s : String) (hne : s ≠ t) (hs : isRevoked registry s = false) :
    isRevoked (addTokenToBlacklist registry t) s = false := by
  by_cases h : t ∈ registry <;>
    simp_all [isRevoked, addTokenToBlacklist, h, hne]

/-- Counterexample to C1 as stated: a successful password change through
`updateUser` puts only the presented token into the Revocation Registry.
Another token previously minted for the same user (here `"t2"`, with the
call made under `"t1"`) is not revoked, so not all previously issued session
tokens are invalidated. -/
theorem updateUser_password_change_leaves_other_token_unrevoked :
    (updateUser sampleUser "t1" [] "" "" "" "longenough1" "newpass123").registry
      = ["t1"] ∧
    isRevoked
      (updateUser sampleUser "t1" [] "" "" "" "longenough1" "newpass123").registry
      "t2" = false := by
  decide

/-- C1 as amended: a successful password change through `updateUser` saves
the user and revokes exactly the token the call was made with: that token is
subsequently reported revoked, while any other token — in particular a
freshly minted one — that was not already revoked is still accepted. -/
theorem updateUser_password_change_revokes_presented_token
    (u : User) (jwt : String) (registry : List String)
    (name language currentPassword newPassword : String)
    (hp : newPassword ≠ "") (hcp : currentPassword ≠ "")
    (hlen : validatePassword newPassword = true)
    (hok : checkPassword u currentPassword = true) :
    (updateUser u jwt registry name "" language currentPassword newPassword).saveInvoked
      = true ∧
    isRevoked
      (updateUser u jwt registry name "" language currentPassword newPassword).registry
      jwt = true ∧
    (∀ t, t ≠ jwt → isRevoked registry t = false →
      isRevoked
        (updateUser u jwt registry name "" language currentPassword newPassword).registry
        t = false) := by
  have hgate : ¬(("" : String) ≠ "" ∧ newPassword ≠ "") := by simp
  refine ⟨?_, ?_, ?_⟩ <;>
    simp [updateUser, hgate, hp, hcp, hlen, updateUserChecked, hok,
      isRevoked_addTokenToBlacklist_self]
  intro t hne hs
  exact isRevoked_addTokenToBlacklist_other registry jwt t hne hs

/-- Witness for the amended C1 at a concrete input. -/
theorem updateUser_password_change_revokes_presented_token_witness :
    ("newpass123" : String) ≠ "" ∧ ("longenough1" : String) ≠ "" ∧
    validatePassword "newpass123" = true ∧
    checkPassword sampleUser "longenough1" = true ∧
    ((updateUser sampleUser "t1" [] "" "" "" "longenough1" "newpass123").saveInvoked
        = true ∧
      isRevoked
        (updateUser sampleUser "t1" [] "" "" "" "longenough1" "newpass123").registry
        "t1" = true ∧
      (∀ t, t ≠ "t1" → isRevoked [] t = false →
        isRevoked
          (updateUser sampleUser "t1" [] "" "" "" "longenough1" "newpass123").registry
          t = false)) :=
  ⟨by decide, by decide, by decide, by decide,
    updateUser_password_change_revokes_presented_token sampleUser "t1" []
      "" "" "longenough1" "newpass123" (by decide) (by decide) (by decide) (by decide)⟩

/-- C2 (code bug): an `updateUser` call in which no supplied field changes
anything (here the supplied name equals the current name, everything else
absent) answers with the nothing-changed message, but the missing `return`
in the source means `user.save()` is nonetheless invoked and a second
success response is attempted.  The stored user itself is unchanged. -/
theorem updateUser_nothing_changed_still_saves :
    updateUser sampleUser "t1" [] "alice01" "" "" "" "" =
      { user := sampleUser, registry := [], saveInvoked := true,
        responses :=
          [.ok "No changed properties supplied. User remains unchanged.",
            .ok "User successfully saved."] } := by
  decide

/-- Counterexample to C6 as stated: with a wrong current password AND a
too-short new password, the synchronous length check fires before the
asynchronous password verification is consumed, so the call fails with the
length error, not with the current-password error the claim promises. -/
theorem updateUser_wrong_current_password_preempted :
    checkPassword sampleUser "wrongpass" = false ∧
    updateUser sampleUser "t1" [] "" "" "" "wrongpass" "short" =
      { user := sampleUser, registry := [], saveInvoked := false,
        responses := [.err ⟨.badRequest,
          "New password should have at least 8 characters"⟩] } ∧
    clientResponse (updateUser sampleUser "t1" [] "" "" "" "wrongpass" "short") ≠
      some (.err ⟨.badRequest, "Current password not correct."⟩) := by
  decide

/-- C6 as amended: when a password or email change is requested and the call
passes the earlier synchronous gates (not both changes at once, a current
password supplied, any supplied new password long enough), a current
password that does not verify makes the call fail with the
current-password `BadRequest` as its client-facing response, with no field
mutated, no save invoked and no token revoked. -/
theorem updateUser_wrong_current_password
    (u : User) (jwt : String) (registry : List String)
    (name email language currentPassword newPassword : String)
    (hmx : ¬(email ≠ "" ∧ newPassword ≠ ""))
    (hreq : newPassword ≠ "" ∨ email ≠ "")
    (hcp : currentPassword ≠ "")
    (hlen : newPassword ≠ "" → validatePassword newPassword = true)
    (hwrong : checkPassword u currentPassword = false) :
    updateUser u jwt registry name email language currentPassword newPassword =
      { user := u, registry := registry, saveInvoked := false,
        responses := [.err ⟨.badRequest, "Current password not correct."⟩,
          .ok "User successfully saved."] } ∧
    clientResponse
      (updateUser u jwt registry name email language currentPassword newPassword) =
      some (.err ⟨.badRequest, "Current password not correct."⟩) := by
  have hlen2 : ¬(newPassword ≠ "" ∧ validatePassword newPassword = false) := by
    intro h
    rw [hlen h.1] at h
    exact absurd h.2 (by simp)
  have hmain :
      updateUser u jwt registry name email language currentPassword newPassword =
      { user := u, registry := registry, saveInvoked := false,
        responses := [.err ⟨.badRequest, "Current password not correct."⟩,
          .ok "User successfully saved."] } := by
    simp [updateUser, hmx, hreq, hcp, hlen2, updateUserChecked, hwrong]
  exact ⟨hmain, by rw [hmain]; rfl⟩

/-- Witness for the amended C6 at a concrete input (email change requested
with a wrong current password). -/
theorem updateUser_wrong_current_password_witness :
    ¬(("b@x.com" : String) ≠ "" ∧ ("" : String) ≠ "") ∧
    (("" : String) ≠ "" ∨ ("b@x.com" : String) ≠ "") ∧
    ("wrongpass" : String) ≠ "" ∧
    (("" : String) ≠ "" → validatePassword "" = true) ∧
    checkPassword sampleUser "wrongpass" = false ∧
    (updateUser sampleUser "t1" [] "" "b@x.com" "" "wrongpass" "" =
      { user := sampleUser, registry := [], saveInvoked := false,
        responses := [.err ⟨.badRequest, "Current password not correct."⟩,
          .ok "User successfully saved."] } ∧
    clientResponse (updateUser sampleUser "t1" [] "" "b@x.com" "" "wrongpass" "") =
      some (.err ⟨.badRequest, "Current password not correct."⟩)) :=
  ⟨by decide, by decide, by decide, by decide, by decide,
    updateUser_wrong_current_password sampleUser "t1" [] "" "b@x.com" ""
      "wrongpass" "" (by decide) (by decide) (by decide) (by decide) (by decide)⟩

/-- A concrete user whose supplied new password will equal the stored one. -/
def samePassUser : User :=
  { sampleUser with
      password := "samepass1"
      resetPasswordToken := "rt9"
      resetPasswordExpires := 50 }

/-- Counterexample to C7 as stated: `newPassword` is applied whenever it is
non-empty — the code never compares it with the current credential.
Supplying a new password equal to the stored one still counts as a change:
the response announces a password change, the presented token is revoked,
and the stored record is mutated (the pending reset state is cleared by the
password setter). -/
theorem updateUser_newPassword_applied_even_if_equal :
    samePassUser.password = "samepass1" ∧
    updateUser samePassUser "t1" [] "" "" "" "samepass1" "samepass1" =
      { user := userSetPassword samePassUser "samepass1",
        registry := ["t1"], saveInvoked := true,
        responses := [.ok
          "User successfully saved. Password changed. Please log in with your new password"] } ∧
    (updateUser samePassUser "t1" [] "" "" "" "samepass1" "samepass1").user ≠
      samePassUser ∧
    isRevoked (updateUser samePassUser "t1" [] "" "" "" "samepass1" "samepass1").registry
      "t1" = true := by
  decide

/-- Field application of the body of `updateUser` once the password check
has succeeded: the first three fields require a non-empty, differing value;
the password only requires non-emptiness. -/
theorem updateUserChecked_user_fields
    (u : User) (jwt : String) (registry : List String)
    (name email language newPassword : String) :
    (updateUserChecked u jwt registry name email language newPassword true).user.name
      = (if name ≠ "" ∧ u.name ≠ name then name else u.name) ∧
    (updateUserChecked u jwt registry name email language newPassword true).user.language
      = (if language ≠ "" ∧ u.language ≠ language then language else u.language) ∧
    (updateUserChecked u jwt registry name email language newPassword true).user.unconfirmedEmail
      = (if email ≠ "" ∧ u.email ≠ email then some email else u.unconfirmedEmail) ∧
    (updateUserChecked u jwt registry name email language newPassword true).user.password
      = (if newPassword ≠ "" then newPassword else u.password) := by
  by_cases hn : name ≠ "" ∧ u.name ≠ name <;>
    by_cases hl : language ≠ "" ∧ u.language ≠ language <;>
      by_cases hm : email ≠ "" ∧ u.email ≠ email <;>
        by_cases hp : newPassword ≠ "" <;>
          simp [updateUserChecked, userSetPassword, hn, hl, hm, hp]

/-- C7 as amended: under the synchronous gates and a verified current
password, `name`, `language` and the email change (via `unconfirmedEmail`)
are each applied exactly when the supplied value is non-empty and differs
from the current one, while `newPassword` is applied exactly when it is
non-empty, with no comparison against the current credential. -/
theorem updateUser_field_application
    (u : User) (jwt : String) (registry : List String)
    (name email language currentPassword newPassword : String)
    (hmx : ¬(email ≠ "" ∧ newPassword ≠ ""))
    (hcred : newPassword ≠ "" ∨ email ≠ "" →
      currentPassword ≠ "" ∧ (newPassword ≠ "" → validatePassword newPassword = true) ∧
        checkPassword u currentPassword = true) :
    (updateUser u jwt registry name email language currentPassword newPassword).user.name
      = (if name ≠ "" ∧ u.name ≠ name then name else u.name) ∧
    (updateUser u jwt registry name email language currentPassword newPassword).user.language
      = (if language ≠ "" ∧ u.language ≠ language then language else u.language) ∧
    (updateUser u jwt registry name email language currentPassword newPassword).user.unconfirmedEmail
      = (if email ≠ "" ∧ u.email ≠ email then some email else u.unconfirmedEmail) ∧
    (updateUser u jwt registry name email language currentPassword newPassword).user.password
      = (if newPassword ≠ "" then newPassword else u.password) := by
  have hred :
      updateUser u jwt registry name email language currentPassword newPassword =
        updateUserChecked u jwt registry name email language newPassword true := by
    by_cases hgate : newPassword ≠ "" ∨ email ≠ ""
    · obtain ⟨hcp, hlen, hok⟩ := hcred hgate
      have hlen2 : ¬(newPassword ≠ "" ∧ validatePassword newPassword = false) := by
        intro h
        rw [hlen h.1] at h
        exact absurd h.2 (by simp)
      simp [updateUser, hmx, hgate, hcp, hlen2, hok]
    · simp [updateUser, hmx, hgate]
  rw [hred]
  exact updateUserChecked_user_fields u jwt registry name email language newPassword

/-- Witness for the amended C7 at a concrete input changing name, language
and password at once. -/
theorem updateUser_field_application_witness :
    ¬(("" : String) ≠ "" ∧ ("brandnew123" : String) ≠ "") ∧
    ((("brandnew123" : String) ≠ "" ∨ ("" : String) ≠ "") →
      ("longenough1" : String) ≠ "" ∧
        (("brandnew123" : String) ≠ "" → validatePassword "brandnew123" = true) ∧
        checkPassword sampleUser "longenough1" = true) ∧
    ((updateUser sampleUser "t1" [] "newname1" "" "de_DE" "longenough1" "brandnew123").user.name
      = (if ("newname1" : String) ≠ "" ∧ sampleUser.name ≠ "newname1" then "newname1"
          else sampleUser.name) ∧
    (updateUser sampleUser "t1" [] "newname1" "" "de_DE" "longenough1" "brandnew123").user.language
      = (if ("de_DE" : String) ≠ "" ∧ sampleUser.language ≠ "de_DE" then "de_DE"
          else sampleUser.language) ∧
    (updateUser sampleUser "t1" [] "newname1" "" "de_DE" "longenough1" "brandnew123").user.unconfirmedEmail
      = (if ("" : String) ≠ "" ∧ sampleUser.email ≠ "" then some ""
          else sampleUser.unconfirmedEmail) ∧
    (updateUser sampleUser "t1" [] "newname1" "" "de_DE" "longenough1" "brandnew123").user.password
      = (if ("brandnew123" : String) ≠ "" then "brandnew123" else sampleUser.password)) :=
  ⟨by decide, by decide,
    updateUser_field_application sampleUser "t1" [] "newname1" "" "de_DE"
      "longenough1" "brandnew123" (by decide) (by decide)⟩
